import Mathlib

/-! Link-QR-verifier: the analysis core of `server.js`.

A shallow embedding of the decision logic of `src/server.js` (the `/analyze` and
`/analyze-qr` handlers, `analyzeWebsite`, `determineWebsiteType`, `checkSafety`,
`generateDescription`) together with theorems about it.

Strings.
A JavaScript string is a sequence of UTF-16 code units, and `length`, `includes`,
`startsWith`, `substring`, `trim` and the regular expressions of the program (none has the
`u` flag) all work on code units.  A string is therefore a `List Nat` of code units here.

`toLowerCase` is embedded on the ASCII range (`A`-`Z` to `a`-`z`); other code units are
left as they are.  The program only asks whether the lowercased text contains one of twelve
ASCII keywords, and the only non-ASCII characters whose lowercase form has an ASCII letter
are U+212A (to `k`, a letter of no keyword) and U+0130 (to `i` followed by U+0307, so that
the `i` could only end a match, and no keyword ends in `i`).

Outside world.
`fetch`, `cheerio` and `new URL` are not embedded.  What they deliver enters as an argument:
the outcome of the fetch-and-parse part of `analyzeWebsite` is an `Except` value, the host
name parser of the `/analyze` handler is a function argument.
-/

set_option maxRecDepth 100000

namespace LinkQR

/-! ## Strings as UTF-16 code units -/

/-- A JavaScript string: its UTF-16 code units. -/
abbrev JStr := List Nat

/-- UTF-16 encoding of one Unicode scalar value. -/
def utf16 (c : Char) : JStr :=
  if c.toNat < 65536 then [c.toNat]
  else [55296 + (c.toNat - 65536) / 1024, 56320 + (c.toNat - 65536) % 1024]

/-- The JavaScript string denoted by a string literal. -/
def lit (s : String) : JStr := s.toList.flatMap utf16

/-- The code unit of the double quote, which the templates of the program put around echoed text. -/
def dquote : JStr := [34]

/-- JavaScript truthiness of a string: it is not empty. -/
def truthy (s : JStr) : Bool := !s.isEmpty

/-- `s.startsWith(p)`. -/
def startsWith (s p : JStr) : Bool := p.isPrefixOf s

/-- `s.includes(k)`: `k` occurs in `s` as a contiguous run of code units. -/
def includes : JStr → JStr → Bool
  | [], k => k.isEmpty
  | c :: t, k => startsWith (c :: t) k || includes t k

/-- Lower-casing of one code unit (ASCII range). -/
def lowerUnit (c : Nat) : Nat := if 65 ≤ c ∧ c ≤ 90 then c + 32 else c

/-- `s.toLowerCase()`. -/
def toLowerCase (s : JStr) : JStr := s.map lowerUnit

/-- The class `\d` of a regular expression without the `u` flag: `0`-`9`. -/
def isDigit (c : Nat) : Bool := decide (48 ≤ c ∧ c ≤ 57)

/-- The class `\s`, which is also what `trim` strips: ECMAScript WhiteSpace and LineTerminator. -/
def isSpace (c : Nat) : Bool :=
  c == 9 || c == 10 || c == 11 || c == 12 || c == 13 || c == 32 || c == 160 ||
  c == 5760 || decide (8192 ≤ c ∧ c ≤ 8202) || c == 8232 || c == 8233 || c == 8239 ||
  c == 8287 || c == 12288 || c == 65279

/-- `s.trim()`. -/
def trim (s : JStr) : JStr := ((s.dropWhile isSpace).reverse.dropWhile isSpace).reverse

/-- `s.substring(0, n)`. -/
def substring0 (s : JStr) (n : Nat) : JStr := s.take n

/-- Worker of `collapseSpace`; `inRun` says that the previous code unit was white space. -/
def collapseAux : Bool → JStr → JStr
  | _, [] => []
  | inRun, c :: t =>
    if isSpace c then (if inRun then collapseAux true t else 32 :: collapseAux true t)
    else c :: collapseAux false t

/-- `s.replace(/\s+/g, ' ')`: every maximal run of white space becomes one space. -/
def collapseSpace (s : JStr) : JStr := collapseAux false s

/-- `xs.join(sep)`. -/
def join (sep : JStr) : List JStr → JStr
  | [] => []
  | [x] => x
  | x :: y :: r => x ++ sep ++ join sep (y :: r)

/-! ## Regular expressions

Both regular expressions of the program are sequences of quantified character classes.
A backtracking matcher finds a match exactly when some choice of repetition counts works, so
matching is embedded as the list of all remainders a quantified class can leave. -/

/-- One quantified character class: `cls{lo,hi}`, with `hi = none` for no upper bound. -/
structure Atom where
  cls : Nat → Bool
  lo : Nat
  hi : Option Nat

/-- The remainders of `s` after a run of `k` code units of class `p`, `lo ≤ k ≤ hi`. -/
def consume (p : Nat → Bool) : Nat → Option Nat → JStr → List JStr
  | lo, _, [] => if lo = 0 then [[]] else []
  | lo, hi, c :: t =>
    (if lo = 0 then [c :: t] else []) ++
      (if p c && hi != some 0 then consume p (lo - 1) (hi.map (· - 1)) t else [])

/-- The sequence of atoms matches at the start of `s`; with `toEnd` the match must use all of `s`
(a pattern ending in `$`). -/
def matchHere (toEnd : Bool) : List Atom → JStr → Bool
  | [], s => !toEnd || s.isEmpty
  | a :: r, s => (consume a.cls a.lo a.hi s).any (matchHere toEnd r)

/-- The sequence of atoms matches somewhere in `s` (a pattern without `^`). -/
def matchAnywhere (toEnd : Bool) (r : List Atom) : JStr → Bool
  | [] => matchHere toEnd r []
  | c :: t => matchHere toEnd r (c :: t) || matchAnywhere toEnd r t

/-- The atom `\d{1,3}`. -/
def digits13 : Atom := ⟨isDigit, 1, some 3⟩

/-- The atom `\.`. -/
def dot : Atom := ⟨fun c => c == 46, 1, some 1⟩

/-- `/\d{1,3}\.\d{1,3}\.\d{1,3}\.\d{1,3}/.test(domain)` (line 246): no anchors. -/
def ipRegexTest (domain : JStr) : Bool :=
  matchAnywhere false [digits13, dot, digits13, dot, digits13, dot, digits13] domain

/-- The class `[\d\s\-\(\)]`. -/
def phoneClass (c : Nat) : Bool := isDigit c || isSpace c || c == 45 || c == 40 || c == 41

/-- `content.match(/^\+?\d[\d\s\-\(\)]+$/)` is not null (line 91): anchored at both ends. -/
def phoneRegexMatch (content : JStr) : Bool :=
  matchHere true [⟨fun c => c == 43, 0, some 1⟩, ⟨isDigit, 1, some 1⟩, ⟨phoneClass, 1, none⟩] content

/-! ## The data model -/

/-- The `metadata` object of an analysis; `status = none` is the string `'Unknown'` of the
fallback, `pageElements` is `(links, images, headings)`. -/
structure Metadata where
  domain : JStr
  status : Option Nat
  hasSSL : Bool
  pageElements : Option (Nat × Nat × Nat)
  deriving DecidableEq

/-- The `analysis` object the two handlers send back. -/
structure AnalysisResult where
  title : JStr
  description : JStr
  type : JStr
  safety : JStr
  warnings : List JStr
  metadata : Option Metadata
  deriving DecidableEq

/-! ## `determineWebsiteType` (lines 204-222) -/

/-- The search text of line 205: `(title + ' ' + description + ' ' + content).toLowerCase()`. -/
def searchText (title description content : JStr) : JStr :=
  toLowerCase (title ++ lit " " ++ description ++ lit " " ++ content)

/-- `determineWebsiteType(title, description, content, domain)`. -/
def determineWebsiteType (title description content domain : JStr) : JStr :=
  let text := searchText title description content
  if includes domain (lit "edu") || includes text (lit "university") || includes text (lit "school") then
    lit "Educational"
  else if includes domain (lit "gov") || includes text (lit "government") then
    lit "Government"
  else if includes text (lit "shop") || includes text (lit "buy") || includes text (lit "cart") then
    lit "E-commerce"
  else if includes text (lit "news") || includes text (lit "article") || includes text (lit "blog") then
    lit "News/Blog"
  else if includes text (lit "search") || includes domain (lit "google") then
    lit "Search Engine"
  else if includes text (lit "social") || includes text (lit "profile") ||
      includes domain (lit "facebook") || includes domain (lit "twitter") then
    lit "Social Media"
  else
    lit "General Website"

/-! ## `checkSafety` (lines 225-252) -/

/-- The warning of the HTTPS check. -/
def httpsWarning : JStr := lit "Website does not use secure HTTPS connection"

/-- The warning of the suspicious-pattern check. -/
def suspiciousWarning : JStr := lit "Domain may contain suspicious elements"

/-- The warning of the IP-address check. -/
def ipWarning : JStr := lit "Website uses IP address instead of domain name"

/-- The array `suspicious` of line 236. -/
def suspicious : List JStr :=
  [lit "bit.ly", lit "tinyurl", lit "suspicious", lit "malicious", lit "phishing"]

/-- The state of `checkSafety`: the variables `safety` and `warnings`. -/
structure SafetyInfo where
  safety : JStr
  warnings : List JStr
  deriving DecidableEq

/-- The `for ... of` loop of lines 237-243 over the remaining patterns: the first pattern the
domain contains pushes the warning, raises the verdict and leaves the loop. -/
def suspiciousLoop (domain : JStr) : List JStr → SafetyInfo → SafetyInfo
  | [], st => st
  | pattern :: rest, st =>
    if includes domain pattern then
      ⟨lit "warning", st.warnings ++ [suspiciousWarning]⟩
    else suspiciousLoop domain rest st

/-- `checkSafety(url, domain)`. -/
def checkSafety (url domain : JStr) : SafetyInfo :=
  let st0 : SafetyInfo := ⟨lit "safe", []⟩
  let st1 : SafetyInfo :=
    if !startsWith url (lit "https://") then ⟨lit "warning", st0.warnings ++ [httpsWarning]⟩ else st0
  let st2 := suspiciousLoop domain suspicious st1
  let st3 : SafetyInfo :=
    if ipRegexTest domain then ⟨lit "warning", st2.warnings ++ [ipWarning]⟩ else st2
  st3

/-! ## `generateDescription` (lines 255-301) -/

/-- The own properties of the object `typeExplanations` (lines 283-291). -/
def typeExplanations : List (JStr × JStr) :=
  [(lit "Educational", lit "This educational website provides learning resources and academic information."),
   (lit "Government", lit "This government website provides official information and services."),
   (lit "E-commerce", lit "This is an online shopping website where you can purchase products."),
   (lit "News/Blog", lit "This website provides news articles and blog content."),
   (lit "Search Engine", lit "This is a search engine that helps you find information online."),
   (lit "Social Media", lit "This is a social media platform for connecting and sharing."),
   (lit "General Website", lit "This appears to be a standard website providing information and services.")]

/-- The sentence of the key `'General Website'`. -/
def generalExplanation : JStr :=
  lit "This appears to be a standard website providing information and services."

/-- Line 293, `typeExplanations[websiteType] || typeExplanations['General Website']`.
A key that is not an own property is looked up in `Object.prototype`; `proto key` is the
string such an inherited value (always truthy) turns into when appended, `none` when there
is no such property.  Every own value is a non-empty string, hence truthy. -/
def typeExplanation (proto : JStr → Option JStr) (websiteType : JStr) : JStr :=
  match typeExplanations.lookup websiteType with
  | some sentence => sentence
  | none =>
    match proto websiteType with
    | some inherited => inherited
    | none => generalExplanation

/-- The sentence of line 297 appended to a short description. -/
def backfill (domain : JStr) : JStr :=
  lit " The website domain is " ++ domain ++
    lit ", which suggests it serves its intended audience with relevant content and functionality."

/-- The content preview of lines 274-280, the empty string when nothing is appended. -/
def previewSegment (bodyText : JStr) : JStr :=
  if truthy bodyText then
    let cleanText := trim (collapseSpace bodyText)
    let preview := substring0 cleanText 200
    if preview.length > 50 then
      lit "Content preview: " ++ dquote ++ preview ++
        (if cleanText.length > 200 then lit "..." else lit "") ++ dquote ++ lit ". "
    else []
  else []

/-- The value of `result` when line 296 is reached: title, description, headings, preview and
type sentence, in this order. -/
def assembled (proto : JStr → Option JStr) (title description : JStr) (headings : List JStr)
    (bodyText websiteType domain : JStr) : JStr :=
  let r0 : JStr := []
  let r1 := if truthy title && title != domain then r0 ++ (title ++ lit " - ") else r0
  let r2 := if truthy description then r1 ++ (description ++ lit " ") else r1
  let r3 :=
    if headings.length > 0 then
      r2 ++ (lit "The main sections include: " ++ join (lit ", ") (headings.take 3) ++ lit ". ")
    else r2
  let r4 := r3 ++ previewSegment bodyText
  r4 ++ typeExplanation proto websiteType

/-- `generateDescription(title, description, headings, bodyText, websiteType, domain)`. -/
def generateDescription (proto : JStr → Option JStr) (title description : JStr)
    (headings : List JStr) (bodyText websiteType domain : JStr) : JStr :=
  let result := assembled proto title description headings bodyText websiteType domain
  if result.length < 100 then result ++ backfill domain else result

/-! ## `analyzeWebsite` (lines 119-201) -/

/-- What the fetch and the `cheerio` queries of the `try` block deliver when none of them
throws: `$('title').text()`, the two `attr('content')` values (`none` for `undefined`), the
text of every `h1, h2, h3` in document order, `$('body').text()`, the two element counts and
`response.status`. -/
structure Page where
  titleText : JStr
  metaDescription : Option JStr
  ogDescription : Option JStr
  headingTexts : List JStr
  bodyText : JStr
  linkCount : Nat
  imageCount : Nat
  status : Nat

/-- `a || b` for a possibly undefined string `a`. -/
def orElse (a : Option JStr) (b : JStr) : JStr :=
  match a with
  | some x => if truthy x then x else b
  | none => b

/-- The template of line 190. -/
def fallbackDescription (url domain : JStr) : JStr :=
  lit "This website (" ++ domain ++
  lit ") could not be fully analyzed due to access restrictions or technical issues. Based on the domain name, this appears to be a standard website. The domain uses " ++
  (if startsWith url (lit "https://") then lit "secure HTTPS" else lit "HTTP") ++
  lit " protocol. Without being able to access the content, we cannot provide detailed information about the website" ++ [39] ++
  lit "s purpose or content. Please visit the site directly to see what it contains, but exercise caution if you" ++ [39] ++
  lit "re unsure about its legitimacy."

/-- The object returned by the `catch` block (lines 188-199). -/
def fallbackResult (url domain : JStr) : AnalysisResult where
  title := domain ++ lit " - Basic Analysis"
  description := fallbackDescription url domain
  type := lit "Unknown Website"
  safety := lit "warning"
  warnings := [lit "Could not access website content for analysis",
               lit "Please verify website legitimacy before visiting"]
  metadata := some ⟨domain, none, startsWith url (lit "https://"), none⟩

/-- The rest of the `try` block (lines 136-182) once the page is there. -/
def pageResult (page : Page) (url domain : JStr) : AnalysisResult :=
  let title := if truthy page.titleText then page.titleText else domain
  let description := orElse page.metaDescription (orElse page.ogDescription (lit ""))
  let headings := (page.headingTexts.take 5).map trim
  let bodyText := substring0 page.bodyText 1000
  let websiteType := determineWebsiteType title description bodyText domain
  let safetyInfo := checkSafety url domain
  let detailedDescription :=
    generateDescription (fun _ => none) title description headings bodyText websiteType domain
  { title := title ++ lit " - Website Analysis"
    description := detailedDescription
    type := websiteType
    safety := safetyInfo.safety
    warnings := safetyInfo.warnings
    metadata := some ⟨domain, some page.status, startsWith url (lit "https://"),
      some (page.linkCount, page.imageCount, headings.length)⟩ }

/-- `analyzeWebsite(url, domain)`.  `fetched` is the outcome of lines 125-151: the page, or the
error thrown by `fetch`, `response.text()` or `cheerio`.  `pageResult` passes `fun _ => none`
to `generateDescription` because `determineWebsiteType` only returns own keys of
`typeExplanations`. -/
def analyzeWebsite {ε : Type} (fetched : Except ε Page) (url domain : JStr) : AnalysisResult :=
  match fetched with
  | .ok page => pageResult page url domain
  | .error _ => fallbackResult url domain

/-! ## The `/analyze` handler (lines 28-70) -/

/-- Lines 42-46: the variable `cleanUrl` when the URL is parsed. -/
def cleanUrl (url : JStr) : JStr :=
  let cleanUrl := trim url
  if !startsWith cleanUrl (lit "http") then lit "https://" ++ cleanUrl else cleanUrl

/-- What a handler answers: a JSON body with a status code. -/
inductive Response where
  | success (analysis : AnalysisResult) (analyzedUrl : Option JStr)
  | failure (code : Nat) (error : JStr)
  deriving DecidableEq

/-- The `/analyze` handler.  `url = none` is a body without `url`; `hostname u` is
`new URL(u).hostname`, `none` when the constructor throws; `fetchPage` is the fetch-and-parse
part of `analyzeWebsite`. -/
def analyze {ε : Type} (hostname : JStr → Option JStr) (fetchPage : JStr → Except ε Page)
    (url : Option JStr) : Response :=
  match url with
  | none => .failure 400 (lit "Please provide a URL")
  | some url =>
    if !truthy url then .failure 400 (lit "Please provide a URL")
    else
      match hostname (cleanUrl url) with
      | none => .failure 500 (lit "Could not analyze website")
      | some domain => .success (analyzeWebsite (fetchPage (cleanUrl url)) (cleanUrl url) domain) (some (cleanUrl url))

/-! ## The `/analyze-qr` handler (lines 73-116) -/

/-- The content types of lines 85-102. -/
inductive ContentType where
  | email | phone | wifi | vcard | plainText
  deriving DecidableEq, Repr

/-- The string the variable `contentType` holds. -/
def ContentType.label : ContentType → JStr
  | .email => lit "Email Address"
  | .phone => lit "Phone Number"
  | .wifi => lit "WiFi Credentials"
  | .vcard => lit "Contact Information"
  | .plainText => lit "Plain Text"

/-- The branch the `if ... else if` chain of lines 88-102 takes. -/
def classify (content : JStr) : ContentType :=
  if includes content (lit "@") && includes content (lit ".") then .email
  else if phoneRegexMatch content then .phone
  else if includes content (lit "WIFI:") then .wifi
  else if includes content (lit "BEGIN:VCARD") then .vcard
  else .plainText

/-- The text each branch appends to `description`. -/
def branchText (content : JStr) : ContentType → JStr
  | .email => lit "This appears to be an email address for direct contact."
  | .phone => lit "This is a phone number for calling or messaging."
  | .wifi => lit "This contains WiFi network information for automatic connection."
  | .vcard => lit "This is contact information that can be saved to your address book."
  | .plainText =>
    lit "This appears to be plain text content. " ++
      (if content.length > 100 then lit "The content is quite lengthy."
       else lit "This is a simple text-based QR code.")

/-- The `analysis` object of lines 108-114 for a non-empty content. -/
def qrAnalysis (content : JStr) : AnalysisResult :=
  let contentType := (classify content).label
  let description :=
    lit "This QR code contains: " ++ dquote ++ content ++ dquote ++ lit ". " ++
      branchText content (classify content)
  { title := lit "QR Code: " ++ contentType
    description := description
    type := lit "QR Content - " ++ contentType
    safety := lit "safe"
    warnings := []
    metadata := none }

/-- The `/analyze-qr` handler; `content = none` is a body without `content`. -/
def analyzeQr (content : Option JStr) : Response :=
  match content with
  | none => .failure 400 (lit "Please provide content")
  | some content =>
    if !truthy content then .failure 400 (lit "Please provide content")
    else .success (qrAnalysis content) none

/-! ## Predicates used to state the results -/

/-- The invariant of the data model: the verdict is `'warning'` exactly when there is a
warning, `'safe'` exactly when there is none. -/
def VerdictMatches (safety : JStr) (warnings : List JStr) : Prop :=
  (safety = lit "warning" ↔ warnings ≠ []) ∧ (safety = lit "safe" ↔ warnings = [])

/-- The HTTPS check of line 230. -/
def httpsCheck (url : JStr) : Bool := !startsWith url (lit "https://")

/-- The suspicious-pattern check of lines 237-243: the domain contains some pattern of the array. -/
def suspiciousCheck (domain : JStr) : Bool := suspicious.any (fun pattern => includes domain pattern)

/-- The rule table of the classifier as the specification words it: six pairs of a predicate
over the search text and the domain and a label, in the order Educational, Government,
E-commerce, News/Blog, Search Engine, Social Media. -/
def specRules (text domain : JStr) : List (Bool × JStr) :=
  [(includes domain (lit "edu") || includes text (lit "university") || includes text (lit "school"),
      lit "Educational"),
   (includes domain (lit "gov") || includes text (lit "government"), lit "Government"),
   (includes text (lit "shop") || includes text (lit "buy") || includes text (lit "cart"),
      lit "E-commerce"),
   (includes text (lit "news") || includes text (lit "article") || includes text (lit "blog"),
      lit "News/Blog"),
   (includes text (lit "search") || includes domain (lit "google"), lit "Search Engine"),
   (includes text (lit "social") || includes text (lit "profile") ||
      includes domain (lit "facebook") || includes domain (lit "twitter"), lit "Social Media")]

/-- First match wins: the label of the first rule whose predicate holds, `dflt` when none does. -/
def firstMatch (dflt : JStr) : List (Bool × JStr) → JStr
  | [] => dflt
  | (holds, label) :: rest => if holds then label else firstMatch dflt rest

/-- The seven labels of the classifier. -/
def websiteTypes : List JStr :=
  [lit "Educational", lit "Government", lit "E-commerce", lit "News/Blog", lit "Search Engine",
   lit "Social Media", lit "General Website"]

/-- The only tokens `determineWebsiteType` looks for in the domain. -/
def domainTokens : List JStr :=
  [lit "edu", lit "gov", lit "google", lit "facebook", lit "twitter"]

/-- The cascade of the QR classifier as the specification words it: four pairs of a predicate
and a label, in the order Email Address, Phone Number, WiFi Credentials, Contact
Information. -/
def specQrRules (content : JStr) : List (Bool × JStr) :=
  [(includes content (lit "@") && includes content (lit "."), lit "Email Address"),
   (phoneRegexMatch content, lit "Phone Number"),
   (includes content (lit "WIFI:"), lit "WiFi Credentials"),
   (includes content (lit "BEGIN:VCARD"), lit "Contact Information")]

/-- The characters the specification allows in a phone number: digits, spaces, dashes and
parentheses. -/
def specPhoneChar (c : Nat) : Bool := isDigit c || c == 32 || c == 45 || c == 40 || c == 41

/-- The phone shape in the words of the specification: an optional leading `+` followed only
by digits, spaces, dashes and parentheses. -/
def specPhoneShape (content : JStr) : Bool :=
  match content with
  | [] => true
  | c :: t => if c = 43 then t.all specPhoneChar else (c :: t).all specPhoneChar

/-- One digit followed by one or more code units of the class `[\d\s\-\(\)]`. -/
def phoneBody (s : JStr) : Bool :=
  match s with
  | d :: c :: r => isDigit d && (c :: r).all phoneClass
  | _ => false

/-- The phone shape the program accepts: an optional leading `+`, then one digit, then one or
more digits, white-space characters, dashes or parentheses, and nothing else. -/
def phoneShape (content : JStr) : Bool :=
  match content with
  | [] => false
  | c :: t => if c = 43 then phoneBody t else phoneBody (c :: t)

/-- URL normalization in the words of the specification: the trimmed input when it begins with
`http://` or `https://`, and `https://` followed by the trimmed input otherwise. -/
def specCleanUrl (url : JStr) : JStr :=
  if startsWith (trim url) (lit "http://") || startsWith (trim url) (lit "https://") then trim url
  else lit "https://" ++ trim url

/-- The value of `result` after line 271: the title, description and headings segments. -/
def leadSegments (title description : JStr) (headings : List JStr) (domain : JStr) : JStr :=
  (if truthy title && title != domain then title ++ lit " - " else []) ++
  (if truthy description then description ++ lit " " else []) ++
  (if headings.length > 0 then
    lit "The main sections include: " ++ join (lit ", ") (headings.take 3) ++ lit ". "
   else [])

/-- The text `clean` of the specification (`cleanText` of line 275): runs of white space
replaced by one space, then trimmed. -/
def cleanText (bodyText : JStr) : JStr := trim (collapseSpace bodyText)

/-- The text `preview` of the specification and of line 276: the first 200 code units of
`cleanText`. -/
def preview (bodyText : JStr) : JStr := substring0 (cleanText bodyText) 200

/-- The preview segment in the words of the specification: `Content preview: "<preview>". `
with `...` right after the preview when the clean text has more than 200 code units. -/
def specPreviewSegment (bodyText : JStr) : JStr :=
  lit "Content preview: " ++ dquote ++ preview bodyText ++
    (if 200 < (cleanText bodyText).length then lit "..." else []) ++ dquote ++ lit ". "

/-- The five labels of the QR classifier. -/
def qrLabels : List JStr :=
  [lit "Email Address", lit "Phone Number", lit "WiFi Credentials", lit "Contact Information",
   lit "Plain Text"]

/-- The groups of a host name: the runs between its dots. -/
def splitDots : JStr → List JStr
  | [] => [[]]
  | c :: t =>
    if c = 46 then [] :: splitDots t
    else
      match splitDots t with
      | [] => [[c]]
      | g :: gs => (c :: g) :: gs

/-- A dotted-quad IPv4 literal in the words of the specification: the whole domain is four
groups of one to three decimal digits separated by single dots. -/
def specDottedQuad (domain : JStr) : Bool :=
  (splitDots domain).length == 4 &&
    (splitDots domain).all (fun g => decide (1 ≤ g.length ∧ g.length ≤ 3) && g.all isDigit)

/-! # Results -/

/-! ## `checkSafety` -/

theorem suspiciousLoop_eq (domain : JStr) (ps : List JStr) (st : SafetyInfo) :
    suspiciousLoop domain ps st =
      if ps.any (fun pattern => includes domain pattern) then
        ⟨lit "warning", st.warnings ++ [suspiciousWarning]⟩
      else st := by
  induction ps with
  | nil => simp [suspiciousLoop]
  | cons p r ih =>
    by_cases h : includes domain p = true
    · simp [suspiciousLoop, h]
    · simp [suspiciousLoop, h, ih]

theorem checkSafety_eq (url domain : JStr) :
    checkSafety url domain =
      ⟨if httpsCheck url || suspiciousCheck domain || ipRegexTest domain then lit "warning"
        else lit "safe",
       (if httpsCheck url then [httpsWarning] else []) ++
       (if suspiciousCheck domain then [suspiciousWarning] else []) ++
       (if ipRegexTest domain then [ipWarning] else [])⟩ := by
  unfold checkSafety
  simp only [suspiciousLoop_eq]
  unfold httpsCheck suspiciousCheck
  cases startsWith url (lit "https://") <;>
    cases suspicious.any (fun pattern => includes domain pattern) <;>
    cases ipRegexTest domain <;> simp

theorem warning_ne_safe : lit "warning" ≠ lit "safe" := by decide

theorem checkSafety_verdict (url domain : JStr) :
    VerdictMatches (checkSafety url domain).safety (checkSafety url domain).warnings := by
  rw [checkSafety_eq]
  have h := warning_ne_safe
  unfold VerdictMatches
  cases httpsCheck url <;> cases suspiciousCheck domain <;> cases ipRegexTest domain <;>
    simp [h, h.symm]

theorem selection_sublist (a b c : JStr) (x y z : Bool) :
    List.Sublist ((if x then [a] else []) ++ (if y then [b] else []) ++ (if z then [c] else []))
      [a, b, c] := by
  cases x <;> cases y <;> cases z <;> simp

theorem warnings_distinct :
    httpsWarning ≠ suspiciousWarning ∧ httpsWarning ≠ ipWarning ∧ suspiciousWarning ≠ ipWarning := by
  decide

/-- C1: every analysis result the server builds has safety `'warning'` exactly when its warnings
list is non-empty and `'safe'` exactly when it is empty: the result of `checkSafety` for any
url and domain, the successful URL analysis (which takes both fields from `checkSafety`
unchanged), the fallback of `analyzeWebsite`, and the `/analyze-qr` answer for any non-empty
content. -/
theorem safety_is_warning_iff_warnings_nonempty :
    (∀ url domain : JStr,
      VerdictMatches (checkSafety url domain).safety (checkSafety url domain).warnings) ∧
    (∀ (ε : Type) (page : Page) (url domain : JStr),
      (analyzeWebsite (Except.ok page : Except ε Page) url domain).safety
          = (checkSafety url domain).safety ∧
      (analyzeWebsite (Except.ok page : Except ε Page) url domain).warnings
          = (checkSafety url domain).warnings ∧
      VerdictMatches (analyzeWebsite (Except.ok page : Except ε Page) url domain).safety
        (analyzeWebsite (Except.ok page : Except ε Page) url domain).warnings) ∧
    (∀ (ε : Type) (e : ε) (url domain : JStr),
      VerdictMatches (analyzeWebsite (Except.error e : Except ε Page) url domain).safety
        (analyzeWebsite (Except.error e : Except ε Page) url domain).warnings) ∧
    (∀ content : JStr, content ≠ [] →
      ∃ r, analyzeQr (some content) = Response.success r none ∧
        VerdictMatches r.safety r.warnings) := by
  refine ⟨checkSafety_verdict, ?_, ?_, ?_⟩
  · intro ε page url domain
    exact ⟨rfl, rfl, checkSafety_verdict url domain⟩
  · intro ε e url domain
    have h := warning_ne_safe
    simp [analyzeWebsite, fallbackResult, VerdictMatches, h]
  · intro content hne
    refine ⟨qrAnalysis content, ?_, ?_⟩
    · cases content with
      | nil => exact absurd rfl hne
      | cons c t => simp [analyzeQr, truthy]
    · have h := warning_ne_safe
      simp [qrAnalysis, VerdictMatches, h.symm]

/-- Witness of C1 at the content `hello`. -/
theorem safety_is_warning_iff_warnings_nonempty_witness :
    ∃ r, analyzeQr (some (lit "hello")) = Response.success r none ∧
      VerdictMatches r.safety r.warnings :=
  safety_is_warning_iff_warnings_nonempty.2.2.2 (lit "hello") (by decide)

/-- C3: the warnings of `checkSafety` are a selection, in order and without repetition, from
HTTPS warning, suspicious-domain warning, IP-address warning: each check contributes its
warning at most once (so no warning occurs twice, however many suspicious tokens the domain
contains), there are at most three, and the verdict is `'warning'` as soon as one check
triggers.  For `http://1.2.3.4` the list is the HTTPS warning followed by the IP-address
warning. -/
theorem checkSafety_warnings_ordered_selection (url domain : JStr) :
    (checkSafety url domain).warnings =
      (if httpsCheck url then [httpsWarning] else []) ++
      (if suspiciousCheck domain then [suspiciousWarning] else []) ++
      (if ipRegexTest domain then [ipWarning] else []) ∧
    List.Sublist (checkSafety url domain).warnings [httpsWarning, suspiciousWarning, ipWarning] ∧
    (checkSafety url domain).warnings.Nodup ∧
    (∀ w, (checkSafety url domain).warnings.count w ≤ 1) ∧
    (checkSafety url domain).warnings.length ≤ 3 ∧
    (httpsCheck url = true ∨ suspiciousCheck domain = true ∨ ipRegexTest domain = true →
      (checkSafety url domain).safety = lit "warning") ∧
    (checkSafety (lit "https://bit.ly.phishing.tinyurl.io") (lit "bit.ly.phishing.tinyurl.io")).warnings
      = [suspiciousWarning] ∧
    (checkSafety (lit "http://1.2.3.4") (lit "1.2.3.4")).warnings = [httpsWarning, ipWarning] := by
  have hsub : List.Sublist (checkSafety url domain).warnings
      [httpsWarning, suspiciousWarning, ipWarning] := by
    rw [checkSafety_eq]
    exact selection_sublist _ _ _ _ _ _
  have hnd : [httpsWarning, suspiciousWarning, ipWarning].Nodup := by
    obtain ⟨h1, h2, h3⟩ := warnings_distinct
    simp [h1, h2, h3]
  have hnodup : (checkSafety url domain).warnings.Nodup := hsub.nodup hnd
  refine ⟨by rw [checkSafety_eq], hsub, hnodup, ?_, ?_, ?_, by decide, by decide⟩
  · intro w
    refine le_trans (hsub.count_le w) ?_
    obtain ⟨h1, h2, h3⟩ := warnings_distinct
    by_cases ha : httpsWarning = w
    · subst ha; simp [List.count_cons, h1.symm, h2.symm]
    · by_cases hb : suspiciousWarning = w
      · subst hb; simp [List.count_cons, h1, h3.symm]
      · simp [List.count_cons, ha, hb]
        split <;> simp
  · simpa using hsub.length_le
  · intro h
    rw [checkSafety_eq]
    rcases h with h | h | h <;> simp [h]

/-- Witness of C3 at a plain-HTTP url of an ordinary host. -/
theorem checkSafety_warnings_ordered_selection_witness :
    (checkSafety (lit "http://example.com") (lit "example.com")).safety = lit "warning" :=
  (checkSafety_warnings_ordered_selection (lit "http://example.com") (lit "example.com")).2.2.2.2.2.1
    (Or.inl (by decide))

/-! ## Strings -/

theorem includes_iff_occurs (s k : JStr) : includes s k = true ↔ k <:+: s := by
  induction s with
  | nil => cases k <;> simp [includes]
  | cons c t ih =>
    simp only [includes, startsWith, Bool.or_eq_true, ih, List.infix_cons_iff]
    rw [ List.isPrefixOf_iff_prefix]

theorem toLowerCase_append (a b : JStr) :
    toLowerCase (a ++ b) = toLowerCase a ++ toLowerCase b := by
  simp [toLowerCase]

theorem toLowerCase_occurs {w s : JStr} (h : w <:+: s) : toLowerCase w <:+: toLowerCase s := by
  obtain ⟨a, b, rfl⟩ := h
  exact ⟨toLowerCase a, toLowerCase b, by simp [toLowerCase]⟩

theorem title_infix_text (title description content : JStr) :
    title <:+: title ++ lit " " ++ description ++ lit " " ++ content :=
  ⟨[], lit " " ++ description ++ lit " " ++ content, by simp⟩

theorem description_infix_text (title description content : JStr) :
    description <:+: title ++ lit " " ++ description ++ lit " " ++ content :=
  ⟨title ++ lit " ", lit " " ++ content, by simp⟩

theorem content_infix_text (title description content : JStr) :
    content <:+: title ++ lit " " ++ description ++ lit " " ++ content :=
  ⟨title ++ lit " " ++ description ++ lit " ", [], by simp⟩

/-- A word found in the title, the description or the content is found, lowercased, in the
search text. -/
theorem includes_searchText {title description content w : JStr}
    (h : w <:+: title ∨ w <:+: description ∨ w <:+: content) :
    includes (searchText title description content) (toLowerCase w) = true := by
  rw [includes_iff_occurs]
  unfold searchText
  apply toLowerCase_occurs
  rcases h with h | h | h
  · exact h.trans (title_infix_text title description content)
  · exact h.trans (description_infix_text title description content)
  · exact h.trans (content_infix_text title description content)

/-! ## `determineWebsiteType` -/

theorem determineWebsiteType_eq_firstMatch (title description content domain : JStr) :
    determineWebsiteType title description content domain =
      firstMatch (lit "General Website")
        (specRules (searchText title description content) domain) := by
  simp only [determineWebsiteType, specRules, firstMatch]

theorem determineWebsiteType_mem (title description content domain : JStr) :
    determineWebsiteType title description content domain ∈ websiteTypes := by
  unfold determineWebsiteType websiteTypes
  simp only []
  split_ifs <;> simp

theorem firstMatch_eq_default_iff (dflt : JStr) (rules : List (Bool × JStr))
    (h : ∀ rule ∈ rules, rule.2 ≠ dflt) :
    firstMatch dflt rules = dflt ↔ ∀ rule ∈ rules, rule.1 = false := by
  induction rules with
  | nil => simp [firstMatch]
  | cons r rest ih =>
    obtain ⟨holds, label⟩ := r
    have hl : label ≠ dflt := h (holds, label) (List.mem_cons_self _ _)
    have ih := ih (fun rule hr => h rule (List.mem_cons_of_mem _ hr))
    cases holds
    · simp [firstMatch, ih]
    · simp [firstMatch, hl]

theorem specRules_labels (text domain : JStr) :
    ∀ rule ∈ specRules text domain, rule.2 ≠ lit "General Website" := by
  have h1 : lit "Educational" ≠ lit "General Website" := by decide
  have h2 : lit "Government" ≠ lit "General Website" := by decide
  have h3 : lit "E-commerce" ≠ lit "General Website" := by decide
  have h4 : lit "News/Blog" ≠ lit "General Website" := by decide
  have h5 : lit "Search Engine" ≠ lit "General Website" := by decide
  have h6 : lit "Social Media" ≠ lit "General Website" := by decide
  intro rule hr
  simp only [specRules, List.mem_cons, List.mem_singleton, List.not_mem_nil, or_false] at hr
  rcases hr with rfl | rfl | rfl | rfl | rfl | rfl <;> assumption

theorem determineWebsiteType_general_iff (title description content domain : JStr) :
    determineWebsiteType title description content domain = lit "General Website" ↔
      ∀ rule ∈ specRules (searchText title description content) domain, rule.1 = false := by
  rw [determineWebsiteType_eq_firstMatch]
  exact firstMatch_eq_default_iff _ _ (specRules_labels _ _)

/-- C2: `determineWebsiteType` is the first-match-wins cascade over the six rules in the order
Educational, Government, E-commerce, News/Blog, Search Engine, Social Media: it returns the
label of the first rule whose predicate holds, `'General Website'` exactly when no predicate
holds, and so always one of the seven labels.  An input whose title, description or content
contains `university` in any letter case is Educational, also when it contains `shop`. -/
theorem determineWebsiteType_first_match_cascade (title description content domain : JStr) :
    determineWebsiteType title description content domain =
      firstMatch (lit "General Website")
        (specRules (searchText title description content) domain) ∧
    determineWebsiteType title description content domain ∈ websiteTypes ∧
    (determineWebsiteType title description content domain = lit "General Website" ↔
      ∀ rule ∈ specRules (searchText title description content) domain, rule.1 = false) ∧
    (∀ w : JStr, toLowerCase w = lit "university" →
      (w <:+: title ∨ w <:+: description ∨ w <:+: content) →
      determineWebsiteType title description content domain = lit "Educational") ∧
    determineWebsiteType (lit "The UniVersity Shop") (lit "Buy books") (lit "cart") (lit "store.com")
      = lit "Educational" := by
  refine ⟨determineWebsiteType_eq_firstMatch _ _ _ _, determineWebsiteType_mem _ _ _ _,
    determineWebsiteType_general_iff _ _ _ _, ?_, by decide⟩
  intro w hw hin
  have h := includes_searchText hin
  rw [hw] at h
  unfold determineWebsiteType
  simp [h]

/-- Witness of C2: the title `Shop of the UNIVERSITY` with a shopping description. -/
theorem determineWebsiteType_first_match_cascade_witness :
    determineWebsiteType (lit "Shop of the UNIVERSITY") (lit "buy") [] (lit "example.com")
      = lit "Educational" :=
  (determineWebsiteType_first_match_cascade (lit "Shop of the UNIVERSITY") (lit "buy") []
    (lit "example.com")).2.2.2.1 (lit "UNIVERSITY") (by decide)
    (Or.inl ⟨lit "Shop of the ", [], by decide⟩)

theorem includes_nil_left (k : JStr) (h : k ≠ []) : includes [] k = false := by
  cases k with
  | nil => exact absurd rfl h
  | cons c t => rfl

/-- C7 as stated fails: the domain `myshop.com` contains `shop` and the domain
`university.com` contains `university`, the title, description and content are empty and
match no rule, and both are classified General Website, not E-commerce or Educational. -/
theorem domain_keyword_counterexample :
    includes (lit "myshop.com") (lit "shop") = true ∧
    determineWebsiteType [] [] [] [] = lit "General Website" ∧
    determineWebsiteType [] [] [] (lit "myshop.com") = lit "General Website" ∧
    determineWebsiteType [] [] [] (lit "myshop.com") ≠ lit "E-commerce" ∧
    includes (lit "university.com") (lit "university") = true ∧
    determineWebsiteType [] [] [] (lit "university.com") ≠ lit "Educational" := by
  decide

/-- C7, amended: the keyword rules are matched against the lowercased concatenation of title,
description and content, joined by single spaces; the domain is not part of that text and is
searched only for `edu`, `gov`, `google`, `facebook`, `twitter`.  Two domains that contain the
same ones of these five tokens are classified alike, and a domain that contains none of them
is classified like the empty domain, so `myshop.com` and `university.com` with a title,
description and content that match no rule are General Website. -/
theorem determineWebsiteType_domain_outside_text (title description content : JStr) :
    searchText title description content
      = toLowerCase (title ++ lit " " ++ description ++ lit " " ++ content) ∧
    (∀ domain : JStr, determineWebsiteType title description content domain =
      firstMatch (lit "General Website")
        (specRules (toLowerCase (title ++ lit " " ++ description ++ lit " " ++ content)) domain)) ∧
    (∀ d1 d2 : JStr, (∀ k ∈ domainTokens, includes d1 k = includes d2 k) →
      determineWebsiteType title description content d1
        = determineWebsiteType title description content d2) ∧
    (∀ domain : JStr, (∀ k ∈ domainTokens, includes domain k = false) →
      determineWebsiteType title description content domain
        = determineWebsiteType title description content []) ∧
    determineWebsiteType [] [] [] (lit "myshop.com") = lit "General Website" ∧
    determineWebsiteType [] [] [] (lit "university.com") = lit "General Website" := by
  have key : ∀ d1 d2 : JStr, (∀ k ∈ domainTokens, includes d1 k = includes d2 k) →
      determineWebsiteType title description content d1
        = determineWebsiteType title description content d2 := by
    intro d1 d2 h
    have e1 := h (lit "edu") (by simp [domainTokens])
    have e2 := h (lit "gov") (by simp [domainTokens])
    have e3 := h (lit "google") (by simp [domainTokens])
    have e4 := h (lit "facebook") (by simp [domainTokens])
    have e5 := h (lit "twitter") (by simp [domainTokens])
    unfold determineWebsiteType
    rw [e1, e2, e3, e4, e5]
  refine ⟨rfl, fun domain => determineWebsiteType_eq_firstMatch _ _ _ _, key, ?_, by decide,
    by decide⟩
  intro domain h
  apply key
  intro k hk
  rw [h k hk]
  have hne : k ≠ [] := by
    simp only [domainTokens, List.mem_cons, List.mem_singleton, List.not_mem_nil, or_false] at hk
    rcases hk with rfl | rfl | rfl | rfl | rfl <;> decide
  exact (includes_nil_left k hne).symm

/-- Witness of amended C7: `myshop.com` and `yourshop.org` contain none of the five tokens. -/
theorem determineWebsiteType_domain_outside_text_witness :
    determineWebsiteType (lit "Welcome") [] [] (lit "myshop.com")
      = determineWebsiteType (lit "Welcome") [] [] (lit "yourshop.org") :=
  (determineWebsiteType_domain_outside_text (lit "Welcome") [] []).2.2.1
    (lit "myshop.com") (lit "yourshop.org") (by decide)

/-! ## `generateDescription` -/

theorem backfill_length (domain : JStr) : (backfill domain).length = domain.length + 112 := by
  have h1 : (lit " The website domain is ").length = 23 := by decide
  have h2 : (lit ", which suggests it serves its intended audience with relevant content and functionality.").length
      = 89 := by decide
  simp only [backfill, List.length_append, h1, h2]
  omega

/-- C4: the string returned by `generateDescription` has length at least 100 for every input;
when the text assembled before the minimum-length step is shorter than 100 code units the
result is that text followed by the sentence about the domain, so it ends with it (as for
empty title, description, headings and body, domain `example.com`, type General Website); a
text of 100 or more code units is returned as it is. -/
theorem generateDescription_min_length (proto : JStr → Option JStr) (title description : JStr)
    (headings : List JStr) (bodyText websiteType domain : JStr) :
    100 ≤ (generateDescription proto title description headings bodyText websiteType domain).length ∧
    ((assembled proto title description headings bodyText websiteType domain).length < 100 →
      generateDescription proto title description headings bodyText websiteType domain =
        assembled proto title description headings bodyText websiteType domain ++
          (lit " The website domain is " ++ domain ++
            lit ", which suggests it serves its intended audience with relevant content and functionality.") ∧
      (lit " The website domain is " ++ domain ++
          lit ", which suggests it serves its intended audience with relevant content and functionality.")
        <:+ generateDescription proto title description headings bodyText websiteType domain) ∧
    (100 ≤ (assembled proto title description headings bodyText websiteType domain).length →
      generateDescription proto title description headings bodyText websiteType domain =
        assembled proto title description headings bodyText websiteType domain) ∧
    (assembled (fun _ => none) [] [] [] [] (lit "General Website") (lit "example.com")).length < 100 ∧
    generateDescription (fun _ => none) [] [] [] [] (lit "General Website") (lit "example.com") =
      lit "This appears to be a standard website providing information and services. The website domain is example.com, which suggests it serves its intended audience with relevant content and functionality." := by
  refine ⟨?_, ?_, ?_, by decide, by decide⟩
  · unfold generateDescription
    simp only []
    split_ifs with h
    · rw [List.length_append, backfill_length]
      omega
    · omega
  · intro h
    have e : generateDescription proto title description headings bodyText websiteType domain =
        assembled proto title description headings bodyText websiteType domain ++ backfill domain := by
      unfold generateDescription
      simp only []
      rw [if_pos h]
    refine ⟨e, ?_⟩
    rw [e]
    exact List.suffix_append _ _
  · intro h
    unfold generateDescription
    simp only []
    rw [if_neg (by omega)]

/-- Witness of C4: the short text of the empty page of `example.com` gets the sentence about
the domain. -/
theorem generateDescription_min_length_witness :
    (lit " The website domain is " ++ lit "example.com" ++
        lit ", which suggests it serves its intended audience with relevant content and functionality.")
      <:+ generateDescription (fun _ => none) [] [] [] [] (lit "General Website") (lit "example.com") :=
  ((generateDescription_min_length (fun _ => none) [] [] [] [] (lit "General Website")
    (lit "example.com")).2.1 (by decide)).2

/-! ## The `/analyze-qr` handler -/

theorem analyzeQr_some (content : JStr) (h : content ≠ []) :
    analyzeQr (some content) = Response.success (qrAnalysis content) none := by
  cases content with
  | nil => exact absurd rfl h
  | cons c t => simp [analyzeQr, truthy]

theorem label_injective (a b : ContentType) (h : a.label = b.label) : a = b := by
  cases a <;> cases b <;> first | rfl | exact absurd h (by decide)

theorem label_eq_firstMatch (content : JStr) :
    (classify content).label = firstMatch (lit "Plain Text") (specQrRules content) := by
  unfold classify specQrRules
  simp only [firstMatch]
  split_ifs <;> rfl

theorem qrAnalysis_type_iff (content : JStr) (t : ContentType) :
    (qrAnalysis content).type = lit "QR Content - " ++ t.label ↔ classify content = t := by
  constructor
  · intro h
    exact label_injective _ _ (List.append_cancel_left h)
  · intro h
    simp [qrAnalysis, h]

/-- C5: for a non-empty content the handler answers with the type `QR Content - ` followed by
the label of the first rule that holds in the order Email Address (contains `@` and `.`),
Phone Number (phone pattern), WiFi Credentials (contains `WIFI:`), Contact Information
(contains `BEGIN:VCARD`), and Plain Text when none holds.  The three contents of the
specification get WiFi Credentials, Email Address and Plain Text, and a content with both `@`
and `.` is Email Address whatever else it contains. -/
theorem qr_type_first_match_cascade (content : JStr) :
    (content ≠ [] →
      analyzeQr (some content) = Response.success (qrAnalysis content) none ∧
      (qrAnalysis content).type =
        lit "QR Content - " ++ firstMatch (lit "Plain Text") (specQrRules content)) ∧
    (includes content (lit "@") = true → includes content (lit ".") = true →
      (qrAnalysis content).type = lit "QR Content - Email Address") ∧
    (qrAnalysis (lit "WIFI:T:WPA;S:home;P:pass;;")).type = lit "QR Content - WiFi Credentials" ∧
    (qrAnalysis (lit "alice@example.com")).type = lit "QR Content - Email Address" ∧
    (qrAnalysis (lit "plain hello world")).type = lit "QR Content - Plain Text" ∧
    (qrAnalysis (lit "WIFI:T:WPA;S:a@b.c;;")).type = lit "QR Content - Email Address" ∧
    (qrAnalysis (lit "BEGIN:VCARD EMAIL:a@b.c END:VCARD")).type = lit "QR Content - Email Address" := by
  refine ⟨?_, ?_, by decide, by decide, by decide, by decide, by decide⟩
  · intro h
    refine ⟨analyzeQr_some content h, ?_⟩
    rw [← label_eq_firstMatch]
    rfl
  · intro h1 h2
    simp [qrAnalysis, classify, h1, h2, ContentType.label]
    decide

/-- Witness of C5 at the content `alice@example.com`. -/
theorem qr_type_first_match_cascade_witness :
    (qrAnalysis (lit "alice@example.com")).type = lit "QR Content - Email Address" :=
  (qr_type_first_match_cascade (lit "alice@example.com")).2.1 (by decide) (by decide)

theorem matchHere_end : matchHere true [] = List.isEmpty := by
  funext s
  simp [matchHere]

theorem matchHere_cons (toEnd : Bool) (a : Atom) (r : List Atom) (s : JStr) :
    matchHere toEnd (a :: r) s = (consume a.cls a.lo a.hi s).any (matchHere toEnd r) := rfl

theorem any_consume_unbounded (p : Nat → Bool) (lo : Nat) (s : JStr) :
    (consume p lo none s).any List.isEmpty = (decide (lo ≤ s.length) && s.all p) := by
  induction s generalizing lo with
  | nil => cases lo <;> simp [consume]
  | cons c t ih =>
    cases hp : p c
    · cases lo <;> simp [consume, hp]
    · cases lo with
      | zero =>
        have h := ih 0
        simp only [consume, hp] at h ⊢
        simp [h, hp]
      | succ n =>
        have h := ih n
        simp only [consume, hp] at h ⊢
        simp [h, hp]

theorem consume_one (p : Nat → Bool) (s : JStr) :
    consume p 1 (some 1) s =
      match s with
      | [] => []
      | c :: t => if p c then [t] else [] := by
  cases s with
  | nil => simp [consume]
  | cons c t => cases hp : p c <;> cases t <;> simp [consume, hp]

theorem consume_optional (p : Nat → Bool) (s : JStr) :
    consume p 0 (some 1) s =
      match s with
      | [] => [[]]
      | c :: t => if p c then [c :: t, t] else [c :: t] := by
  cases s with
  | nil => simp [consume]
  | cons c t => cases hp : p c <;> cases t <;> simp [consume, hp]

theorem matchHere_class_plus (s : JStr) :
    matchHere true [⟨phoneClass, 1, none⟩] s = (decide (1 ≤ s.length) && s.all phoneClass) := by
  rw [matchHere_cons, matchHere_end]
  exact any_consume_unbounded _ _ _

theorem matchHere_digit_class (s : JStr) :
    matchHere true [⟨isDigit, 1, some 1⟩, ⟨phoneClass, 1, none⟩] s = phoneBody s := by
  rw [matchHere_cons]
  have e : matchHere true [⟨phoneClass, 1, none⟩] =
      fun s => (decide (1 ≤ s.length) && s.all phoneClass) := funext matchHere_class_plus
  rw [e]
  simp only []
  rw [consume_one]
  cases s with
  | nil => simp [phoneBody]
  | cons d r =>
    cases hd : isDigit d
    · cases r <;> simp [phoneBody, hd]
    · cases r <;> simp [phoneBody, hd]

theorem plus_not_digit : isDigit 43 = false := by decide

/-- The phone pattern of line 91 accepts exactly the contents of the shape `phoneShape`. -/
theorem phoneRegexMatch_eq_phoneShape (content : JStr) :
    phoneRegexMatch content = phoneShape content := by
  unfold phoneRegexMatch
  rw [matchHere_cons, consume_optional]
  cases content with
  | nil => simp [matchHere_digit_class, phoneBody, phoneShape]
  | cons c t =>
    by_cases hc : c = 43
    · subst hc
      have h : phoneBody (43 :: t) = false := by
        cases t <;> simp [phoneBody, plus_not_digit]
      simp [matchHere_digit_class, phoneShape, h]
    · simp [matchHere_digit_class, phoneShape, hc]


/-- C9 as stated fails in both directions: `5` and `(555) 123-4567` are non-empty, hold no
`@`, are an optional `+` followed only by digits, spaces, dashes and parentheses, and are
classified Plain Text; `1<TAB>2` holds a tab and is classified Phone Number. -/
theorem phone_number_counterexample :
    (lit "5" ≠ [] ∧ includes (lit "5") (lit "@") = false ∧ specPhoneShape (lit "5") = true ∧
      (qrAnalysis (lit "5")).type = lit "QR Content - Plain Text" ∧
      (qrAnalysis (lit "5")).type ≠ lit "QR Content - Phone Number") ∧
    (lit "(555) 123-4567" ≠ [] ∧ includes (lit "(555) 123-4567") (lit "@") = false ∧
      specPhoneShape (lit "(555) 123-4567") = true ∧
      (qrAnalysis (lit "(555) 123-4567")).type = lit "QR Content - Plain Text" ∧
      (qrAnalysis (lit "(555) 123-4567")).type ≠ lit "QR Content - Phone Number") ∧
    (specPhoneShape [49, 9, 50] = false ∧ specPhoneChar 9 = false ∧
      (qrAnalysis [49, 9, 50]).type = lit "QR Content - Phone Number") := by
  decide

/-- C9, amended: a content is classified Phone Number exactly when it does not contain both
`@` and `.` and is, as a whole, an optional leading `+`, then one digit, then one or more
code units that are digits, white space, dashes or parentheses.  `+1 555 0100` and `555-1234`
are Phone Number; `(555) 123-4567`, which does not start with a digit, and the single digit
`5` are not. -/
theorem phone_number_iff_phoneShape (content : JStr) :
    ((qrAnalysis content).type = lit "QR Content - Phone Number" ↔
      ¬ (includes content (lit "@") = true ∧ includes content (lit ".") = true) ∧
        phoneShape content = true) ∧
    (content ≠ [] → analyzeQr (some content) = Response.success (qrAnalysis content) none) ∧
    (qrAnalysis (lit "+1 555 0100")).type = lit "QR Content - Phone Number" ∧
    (qrAnalysis (lit "555-1234")).type = lit "QR Content - Phone Number" ∧
    (qrAnalysis (lit "(555) 123-4567")).type ≠ lit "QR Content - Phone Number" ∧
    (qrAnalysis (lit "5")).type ≠ lit "QR Content - Phone Number" := by
  refine ⟨?_, analyzeQr_some content, by decide, by decide, by decide, by decide⟩
  have h := qrAnalysis_type_iff content ContentType.phone
  have e : lit "QR Content - " ++ ContentType.phone.label = lit "QR Content - Phone Number" := by
    decide
  rw [e] at h
  rw [h, ← phoneRegexMatch_eq_phoneShape]
  unfold classify
  cases includes content (lit "@") <;> cases includes content (lit ".") <;>
    cases phoneRegexMatch content <;> simp <;> split_ifs <;> simp

/-- Witness of amended C9 at the content `+1 555 0100`. -/
theorem phone_number_iff_phoneShape_witness :
    analyzeQr (some (lit "+1 555 0100")) = Response.success (qrAnalysis (lit "+1 555 0100")) none ∧
    (qrAnalysis (lit "+1 555 0100")).type = lit "QR Content - Phone Number" :=
  ⟨(phone_number_iff_phoneShape (lit "+1 555 0100")).2.1 (by decide),
   (phone_number_iff_phoneShape (lit "+1 555 0100")).1.mpr ⟨by decide, by decide⟩⟩

/-- C10: a content classified Plain Text gets the description
`This QR code contains: "<content>". This appears to be plain text content. ` followed by
`The content is quite lengthy.` when the content has more than 100 code units and by
`This is a simple text-based QR code.` otherwise; the content is echoed whole. -/
theorem plain_text_description (content : JStr)
    (h : (qrAnalysis content).type = lit "QR Content - Plain Text") :
    (qrAnalysis content).description =
      lit "This QR code contains: " ++ dquote ++ content ++ dquote ++
        lit ". This appears to be plain text content. " ++
        (if content.length > 100 then lit "The content is quite lengthy."
         else lit "This is a simple text-based QR code.") ∧
    (content.length ≤ 100 → (qrAnalysis content).description =
      lit "This QR code contains: " ++ dquote ++ content ++ dquote ++
        lit ". This appears to be plain text content. This is a simple text-based QR code.") ∧
    (100 < content.length → (qrAnalysis content).description =
      lit "This QR code contains: " ++ dquote ++ content ++ dquote ++
        lit ". This appears to be plain text content. The content is quite lengthy.") ∧
    (lit "This QR code contains: " ++ dquote ++ content ++ dquote) <+: (qrAnalysis content).description := by
  have hc : classify content = ContentType.plainText := (qrAnalysis_type_iff content _).mp h
  have e1 : lit ". This appears to be plain text content. "
      = lit ". " ++ lit "This appears to be plain text content. " := by decide
  have e2 : lit ". This appears to be plain text content. This is a simple text-based QR code."
      = lit ". " ++ (lit "This appears to be plain text content. " ++
          lit "This is a simple text-based QR code.") := by decide
  have e3 : lit ". This appears to be plain text content. The content is quite lengthy."
      = lit ". " ++ (lit "This appears to be plain text content. " ++
          lit "The content is quite lengthy.") := by decide
  have hd : (qrAnalysis content).description =
      lit "This QR code contains: " ++ dquote ++ content ++ dquote ++ lit ". " ++
        (lit "This appears to be plain text content. " ++
          (if content.length > 100 then lit "The content is quite lengthy."
           else lit "This is a simple text-based QR code.")) := by
    simp only [qrAnalysis, hc, branchText]
  refine ⟨?_, ?_, ?_, ?_⟩
  · rw [hd, e1]; simp only [List.append_assoc]
  · intro hl
    rw [hd, e2, if_neg (by omega)]
    simp only [List.append_assoc]
  · intro hl
    rw [hd, e3, if_pos hl]
    simp only [List.append_assoc]
  · rw [hd]
    exact (List.prefix_append _ (lit ". ")).trans (List.prefix_append _ _)

/-- Witness of C10: a content of exactly 100 letters `a` gets the simple note. -/
theorem plain_text_description_witness :
    (qrAnalysis (List.replicate 100 97)).description =
      lit "This QR code contains: " ++ dquote ++ List.replicate 100 97 ++ dquote ++
        lit ". This appears to be plain text content. This is a simple text-based QR code." :=
  (plain_text_description (List.replicate 100 97) (by decide)).2.1 (by decide)

/-! ## `analyzeWebsite` and the `/analyze` handler -/

/-- C6: when the fetch or the extraction fails, whatever the error, `analyzeWebsite` returns
the degraded result: title `<domain> - Basic Analysis`, type `Unknown Website`, safety
`warning`, the two fixed warnings in their order, and a description that opens by naming the
domain and says `secure HTTPS` when the url starts with `https://` and `HTTP` otherwise.  The
`/analyze` handler then answers with this result as a success. -/
theorem analyzeWebsite_fallback (ε : Type) (e : ε) (url domain : JStr) :
    analyzeWebsite (Except.error e : Except ε Page) url domain = fallbackResult url domain ∧
    (fallbackResult url domain).title = domain ++ lit " - Basic Analysis" ∧
    (fallbackResult url domain).type = lit "Unknown Website" ∧
    (fallbackResult url domain).safety = lit "warning" ∧
    (fallbackResult url domain).warnings =
      [lit "Could not access website content for analysis",
       lit "Please verify website legitimacy before visiting"] ∧
    (fallbackResult url domain).warnings.length = 2 ∧
    (lit "This website (" ++ domain ++ lit ") could not be fully analyzed")
      <+: (fallbackResult url domain).description ∧
    (startsWith url (lit "https://") = true →
      lit "The domain uses secure HTTPS protocol." <:+: (fallbackResult url domain).description) ∧
    (startsWith url (lit "https://") = false →
      lit "The domain uses HTTP protocol." <:+: (fallbackResult url domain).description) ∧
    (∀ (hostname : JStr → Option JStr) (fetchPage : JStr → Except ε Page) (input : JStr),
      input ≠ [] → hostname (cleanUrl input) = some domain → fetchPage (cleanUrl input) = Except.error e →
      analyze hostname fetchPage (some input) =
        Response.success (fallbackResult (cleanUrl input) domain) (some (cleanUrl input))) := by
  have p1 : lit ") could not be fully analyzed due to access restrictions or technical issues. Based on the domain name, this appears to be a standard website. The domain uses "
      = lit ") could not be fully analyzed" ++ (lit " due to access restrictions or technical issues. Based on the domain name, this appears to be a standard website. " ++ lit "The domain uses ") := by
    decide
  have p2 : lit " protocol. Without being able to access the content, we cannot provide detailed information about the website"
      = lit " protocol." ++ lit " Without being able to access the content, we cannot provide detailed information about the website" := by
    decide
  have p3 : lit "The domain uses secure HTTPS protocol."
      = lit "The domain uses " ++ (lit "secure HTTPS" ++ lit " protocol.") := by decide
  have p4 : lit "The domain uses HTTP protocol."
      = lit "The domain uses " ++ (lit "HTTP" ++ lit " protocol.") := by decide
  refine ⟨rfl, rfl, rfl, rfl, rfl, rfl, ?_, ?_, ?_, ?_⟩
  · refine ⟨lit " due to access restrictions or technical issues. Based on the domain name, this appears to be a standard website. " ++
      lit "The domain uses " ++
      (if startsWith url (lit "https://") then lit "secure HTTPS" else lit "HTTP") ++
      lit " protocol." ++
      lit " Without being able to access the content, we cannot provide detailed information about the website" ++ [39] ++
      lit "s purpose or content. Please visit the site directly to see what it contains, but exercise caution if you" ++ [39] ++
      lit "re unsure about its legitimacy.", ?_⟩
    simp only [fallbackResult, fallbackDescription, p1, p2, List.append_assoc]
  · intro h
    refine ⟨lit "This website (" ++ domain ++ lit ") could not be fully analyzed" ++
      lit " due to access restrictions or technical issues. Based on the domain name, this appears to be a standard website. ",
      lit " Without being able to access the content, we cannot provide detailed information about the website" ++ [39] ++
      lit "s purpose or content. Please visit the site directly to see what it contains, but exercise caution if you" ++ [39] ++
      lit "re unsure about its legitimacy.", ?_⟩
    simp only [fallbackResult, fallbackDescription, h, if_true, p1, p2, p3, List.append_assoc]
  · intro h
    refine ⟨lit "This website (" ++ domain ++ lit ") could not be fully analyzed" ++
      lit " due to access restrictions or technical issues. Based on the domain name, this appears to be a standard website. ",
      lit " Without being able to access the content, we cannot provide detailed information about the website" ++ [39] ++
      lit "s purpose or content. Please visit the site directly to see what it contains, but exercise caution if you" ++ [39] ++
      lit "re unsure about its legitimacy.", ?_⟩
    simp only [fallbackResult, fallbackDescription, h, p1, p2, p4, List.append_assoc]
    rfl
  · intro hostname fetchPage input hne hh hf
    cases input with
    | nil => exact absurd rfl hne
    | cons c t =>
      simp only [analyze, truthy, List.isEmpty_cons, Bool.not_false, Bool.not_true, hh, hf,
        analyzeWebsite]
      rfl

/-- Witness of C6: the input `example.com` with a failing fetch is answered with the fallback
for `https://example.com`, whose description says `secure HTTPS`. -/
theorem analyzeWebsite_fallback_witness :
    analyze (fun _ => some (lit "example.com")) (fun _ => (Except.error () : Except Unit Page))
        (some (lit "example.com")) =
      Response.success (fallbackResult (lit "https://example.com") (lit "example.com"))
        (some (lit "https://example.com")) ∧
    lit "The domain uses secure HTTPS protocol."
      <:+: (fallbackResult (lit "https://example.com") (lit "example.com")).description :=
  ⟨(analyzeWebsite_fallback Unit () (lit "https://example.com") (lit "example.com")).2.2.2.2.2.2.2.2.2
      (fun _ => some (lit "example.com")) (fun _ => Except.error ()) (lit "example.com")
      (by decide) rfl rfl,
   (analyzeWebsite_fallback Unit () (lit "https://example.com") (lit "example.com")).2.2.2.2.2.2.2.1
      (by decide)⟩

/-- C8 fails on the code: the input `httpbin.org` has no scheme, the specification normalizes
it to `https://httpbin.org`, and the handler leaves it as `httpbin.org` because it only tests
for the four letters `http`; the value handed on begins with neither `http://` nor
`https://`. -/
theorem cleanUrl_httpbin_unchanged :
    cleanUrl (lit "httpbin.org") = lit "httpbin.org" ∧
    startsWith (cleanUrl (lit "httpbin.org")) (lit "http://") = false ∧
    startsWith (cleanUrl (lit "httpbin.org")) (lit "https://") = false ∧
    specCleanUrl (lit "httpbin.org") = lit "https://httpbin.org" ∧
    cleanUrl (lit "httpbin.org") ≠ specCleanUrl (lit "httpbin.org") := by
  decide

/-! ## The content preview of `generateDescription` -/

theorem cleanText_nil : cleanText [] = [] := by decide

theorem previewSegment_eq (bodyText : JStr) :
    previewSegment bodyText =
      if 50 < (preview bodyText).length then specPreviewSegment bodyText else [] := by
  cases bodyText with
  | nil =>
    have h : ¬ 50 < (preview []).length := by decide
    rw [if_neg h]
    rfl
  | cons c t =>
    simp only [previewSegment, truthy, List.isEmpty_cons, Bool.not_false, if_true, preview,
      cleanText, specPreviewSegment, gt_iff_lt]
    rfl

theorem assembled_eq (proto : JStr → Option JStr) (title description : JStr)
    (headings : List JStr) (bodyText websiteType domain : JStr) :
    assembled proto title description headings bodyText websiteType domain =
      leadSegments title description headings domain ++ previewSegment bodyText ++
        typeExplanation proto websiteType := by
  unfold assembled leadSegments
  simp only []
  cases (truthy title && title != domain) <;> cases truthy description <;>
    by_cases h : headings.length > 0 <;> simp [h]

theorem assembled_leads_result (proto : JStr → Option JStr) (title description : JStr)
    (headings : List JStr) (bodyText websiteType domain : JStr) :
    assembled proto title description headings bodyText websiteType domain <+:
      generateDescription proto title description headings bodyText websiteType domain := by
  unfold generateDescription
  simp only []
  split_ifs
  · exact List.prefix_append _ _
  · exact List.prefix_refl _

/-- C11: with `cleanText` the body text after collapsing white space and trimming and
`preview` its first 200 code units, the result of `generateDescription` is, for every input,
the title, description and headings segments, then the preview segment, then the type
sentence (then the backfill of a short text).  When the preview has more than 50 code units
the preview segment is `Content preview: "<preview>". `, with `...` right after the preview
exactly when the clean text has more than 200 code units, and the result contains it; when
the preview has 50 code units or fewer the result is the one for an empty body text.  As an
instance of the cleaning, two spaces, `a`, a space, a line feed, a tab, a space, `b`, a
carriage return and a space become `a b`. -/
theorem generateDescription_content_preview (proto : JStr → Option JStr)
    (title description : JStr) (headings : List JStr) (bodyText websiteType domain : JStr) :
    cleanText bodyText = trim (collapseSpace bodyText) ∧
    preview bodyText = (cleanText bodyText).take 200 ∧
    generateDescription proto title description headings bodyText websiteType domain =
      leadSegments title description headings domain ++
        (if 50 < (preview bodyText).length then specPreviewSegment bodyText else []) ++
        typeExplanation proto websiteType ++
        (if (assembled proto title description headings bodyText websiteType domain).length < 100
          then backfill domain else []) ∧
    (50 < (preview bodyText).length →
      specPreviewSegment bodyText <:+:
        generateDescription proto title description headings bodyText websiteType domain) ∧
    (200 < (cleanText bodyText).length →
      specPreviewSegment bodyText =
        lit "Content preview: " ++ dquote ++ preview bodyText ++ lit "..." ++ dquote ++ lit ". ") ∧
    ((cleanText bodyText).length ≤ 200 →
      specPreviewSegment bodyText =
        lit "Content preview: " ++ dquote ++ preview bodyText ++ dquote ++ lit ". ") ∧
    ((preview bodyText).length ≤ 50 →
      generateDescription proto title description headings bodyText websiteType domain =
        generateDescription proto title description headings [] websiteType domain) ∧
    cleanText [32, 32, 97, 32, 10, 9, 32, 98, 13, 32] = [97, 32, 98] := by
  have hgen : generateDescription proto title description headings bodyText websiteType domain =
      leadSegments title description headings domain ++
        (if 50 < (preview bodyText).length then specPreviewSegment bodyText else []) ++
        typeExplanation proto websiteType ++
        (if (assembled proto title description headings bodyText websiteType domain).length < 100
          then backfill domain else []) := by
    rw [← previewSegment_eq, ← assembled_eq]
    unfold generateDescription
    simp only []
    split_ifs <;> simp
  refine ⟨rfl, rfl, hgen, ?_, ?_, ?_, ?_, by decide⟩
  · intro h
    rw [hgen, if_pos h]
    exact ⟨leadSegments title description headings domain,
      typeExplanation proto websiteType ++
        (if (assembled proto title description headings bodyText websiteType domain).length < 100
          then backfill domain else []), by simp only [List.append_assoc]⟩
  · intro h
    simp only [specPreviewSegment, if_pos h]
  · intro h
    simp only [specPreviewSegment, if_neg (Nat.not_lt.mpr h), List.append_nil]
  · intro h
    have e : assembled proto title description headings bodyText websiteType domain =
        assembled proto title description headings [] websiteType domain := by
      rw [assembled_eq, assembled_eq, previewSegment_eq, previewSegment_eq,
        if_neg (Nat.not_lt.mpr h), if_neg (by decide)]
    unfold generateDescription
    rw [e]

/-- Witness of C11: a body of thirty `a`, thirty spaces and thirty `b` has a clean text of 61
code units, which the result shows as preview; a body of a hundred spaces and one `a` has the
clean text `a`, and the result is the one for an empty body. -/
theorem generateDescription_content_preview_witness :
    specPreviewSegment (List.replicate 30 97 ++ List.replicate 30 32 ++ List.replicate 30 98) <:+:
      generateDescription (fun _ => none) (lit "T") [] []
        (List.replicate 30 97 ++ List.replicate 30 32 ++ List.replicate 30 98)
        (lit "News/Blog") (lit "d.com") ∧
    generateDescription (fun _ => none) (lit "T") [] [] (List.replicate 100 32 ++ [97])
        (lit "News/Blog") (lit "d.com") =
      generateDescription (fun _ => none) (lit "T") [] [] [] (lit "News/Blog") (lit "d.com") :=
  ⟨(generateDescription_content_preview (fun _ => none) (lit "T") [] []
      (List.replicate 30 97 ++ List.replicate 30 32 ++ List.replicate 30 98)
      (lit "News/Blog") (lit "d.com")).2.2.2.1 (by decide),
   (generateDescription_content_preview (fun _ => none) (lit "T") [] []
      (List.replicate 100 32 ++ [97]) (lit "News/Blog") (lit "d.com")).2.2.2.2.2.2.1 (by decide)⟩

/-! ## The answers of the `/analyze-qr` handler -/

theorem label_mem (t : ContentType) : t.label ∈ qrLabels := by
  cases t <;> simp [ContentType.label, qrLabels]

/-- C12: the `/analyze-qr` handler answers with the error `Please provide content` exactly
when the content is absent or the empty string.  For every other content it succeeds, with
safety `safe`, no warnings, title `QR Code: <label>` and type `QR Content - <label>` for one of
the five labels; the answer is a function of the content alone, so equal contents get equal
answers. -/
theorem analyzeQr_answers (content : Option JStr) :
    (analyzeQr content = Response.failure 400 (lit "Please provide content") ↔
      content = none ∨ content = some []) ∧
    (∀ c : JStr, content = some c → c ≠ [] →
      ∃ r label, analyzeQr content = Response.success r none ∧ label ∈ qrLabels ∧
        r.safety = lit "safe" ∧ r.warnings = [] ∧
        r.title = lit "QR Code: " ++ label ∧ r.type = lit "QR Content - " ++ label) ∧
    (∀ other : Option JStr, other = content → analyzeQr other = analyzeQr content) := by
  refine ⟨?_, ?_, ?_⟩
  · cases content with
    | none => simp [analyzeQr]
    | some c =>
      cases c with
      | nil => simp [analyzeQr, truthy]
      | cons a t => simp [analyzeQr, truthy]
  · intro c hc hne
    subst hc
    exact ⟨qrAnalysis c, (classify c).label, analyzeQr_some c hne, label_mem _, rfl, rfl, rfl, rfl⟩
  · intro other h
    rw [h]

/-- Witness of C12 at the content `hello`. -/
theorem analyzeQr_answers_witness :
    ∃ r label, analyzeQr (some (lit "hello")) = Response.success r none ∧ label ∈ qrLabels ∧
      r.safety = lit "safe" ∧ r.warnings = [] ∧
      r.title = lit "QR Code: " ++ label ∧ r.type = lit "QR Content - " ++ label :=
  (analyzeQr_answers (some (lit "hello"))).2.1 (lit "hello") rfl (by decide)

/-! ## The IP-address check of `checkSafety` -/

/-- C13 fails on the code: the host names `1.2.3.4.example.com` and `v10.20.30.40x.net` are not
dotted-quad literals, and `checkSafety` gives both the warning about an IP address, because
the pattern of line 246 has no anchors and matches inside the host name.  The literal
`1.2.3.4` is a dotted quad and gets the warning. -/
theorem ipWarning_inside_host_name :
    specDottedQuad (lit "1.2.3.4.example.com") = false ∧
    (checkSafety (lit "https://1.2.3.4.example.com") (lit "1.2.3.4.example.com")).warnings
      = [ipWarning] ∧
    specDottedQuad (lit "v10.20.30.40x.net") = false ∧
    (checkSafety (lit "https://v10.20.30.40x.net") (lit "v10.20.30.40x.net")).warnings
      = [ipWarning] ∧
    specDottedQuad (lit "1.2.3.4") = true ∧
    (checkSafety (lit "https://1.2.3.4") (lit "1.2.3.4")).warnings = [ipWarning] ∧
    specDottedQuad (lit "example.com") = false ∧
    (checkSafety (lit "https://example.com") (lit "example.com")).warnings = [] := by
  decide

theorem splitDots_ne_nil (s : JStr) : splitDots s ≠ [] := by
  cases s with
  | nil => simp [splitDots]
  | cons c t =>
    unfold splitDots
    split_ifs
    · simp
    · split <;> simp

/-- Joining the groups of a host name with dots gives the host name back. -/
theorem join_splitDots (s : JStr) : join [46] (splitDots s) = s := by
  induction s with
  | nil => simp [splitDots, join]
  | cons c t ih =>
    unfold splitDots
    by_cases hc : c = 46
    · rw [if_pos hc]
      cases hst : splitDots t with
      | nil => exact absurd hst (splitDots_ne_nil t)
      | cons g gs =>
        rw [hst] at ih
        simp [join, ih, hc]
    · rw [if_neg hc]
      cases hst : splitDots t with
      | nil => exact absurd hst (splitDots_ne_nil t)
      | cons g gs =>
        rw [hst] at ih
        cases gs with
        | nil => simp only [join] at ih ⊢; rw [ih]
        | cons g2 gs2 =>
          simp only [join] at ih ⊢
          rw [← ih]
          simp

theorem consume_digits_group (g rest : JStr)
    (h : (decide (1 ≤ g.length ∧ g.length ≤ 3) && g.all isDigit) = true) :
    rest ∈ consume isDigit 1 (some 3) (g ++ rest) := by
  simp only [Bool.and_eq_true, decide_eq_true_eq, List.all_eq_true] at h
  obtain ⟨⟨h1, h3⟩, hd⟩ := h
  match g, h1, h3, hd with
  | [a], _, _, hd =>
    have ha := hd a (by simp)
    cases rest <;> simp [consume, ha]
  | [a, b], _, _, hd =>
    have ha := hd a (by simp)
    have hb := hd b (by simp)
    cases rest <;> simp [consume, ha, hb]
  | [a, b, c], _, _, hd =>
    have ha := hd a (by simp)
    have hb := hd b (by simp)
    have hc := hd c (by simp)
    cases rest <;> simp [consume, ha, hb, hc]

theorem matchHere_digits_cons (r : List Atom) (g rest : JStr)
    (h : (decide (1 ≤ g.length ∧ g.length ≤ 3) && g.all isDigit) = true)
    (hr : matchHere false r rest = true) :
    matchHere false (digits13 :: r) (g ++ rest) = true := by
  rw [matchHere_cons, List.any_eq_true]
  exact ⟨rest, consume_digits_group g rest h, hr⟩

theorem matchHere_dot_cons (r : List Atom) (rest : JStr) (hr : matchHere false r rest = true) :
    matchHere false (dot :: r) (46 :: rest) = true := by
  rw [matchHere_cons, List.any_eq_true]
  refine ⟨rest, ?_, hr⟩
  show rest ∈ consume (fun c => c == 46) 1 (some 1) (46 :: rest)
  rw [consume_one]
  simp

theorem matchAnywhere_of_matchHere (toEnd : Bool) (r : List Atom) (s : JStr)
    (h : matchHere toEnd r s = true) : matchAnywhere toEnd r s = true := by
  cases s with
  | nil => simpa [matchAnywhere] using h
  | cons c t => simp [matchAnywhere, h]

/-- The half of C13 that holds on the code: every dotted quad passes the test of line 246. -/
theorem ipRegexTest_of_dottedQuad (domain : JStr) (h : specDottedQuad domain = true) :
    ipRegexTest domain = true := by
  unfold specDottedQuad at h
  simp only [Bool.and_eq_true, beq_iff_eq] at h
  obtain ⟨hlen, hall⟩ := h
  have hj := join_splitDots domain
  match hs : splitDots domain, hlen with
  | [g1, g2, g3, g4], _ =>
    rw [hs] at hall hj
    simp only [List.all_cons, List.all_nil, Bool.and_true, Bool.and_eq_true] at hall
    obtain ⟨h1, h2, h3, h4⟩ := hall
    simp only [join] at hj
    rw [← hj]
    apply matchAnywhere_of_matchHere
    simp only [List.append_assoc, List.singleton_append]
    apply matchHere_digits_cons _ _ _ ((Bool.and_eq_true _ _).mpr h1)
    apply matchHere_dot_cons
    apply matchHere_digits_cons _ _ _ ((Bool.and_eq_true _ _).mpr h2)
    apply matchHere_dot_cons
    apply matchHere_digits_cons _ _ _ ((Bool.and_eq_true _ _).mpr h3)
    apply matchHere_dot_cons
    have e : g4 = g4 ++ [] := by simp
    rw [e]
    apply matchHere_digits_cons _ _ _ ((Bool.and_eq_true _ _).mpr h4)
    simp [matchHere]

end LinkQR
